import Mathlib

/-!
Shallow embedding of `pkg/bridge/bacalhau.go` (lilypad bridge): the job
submitter `xRunner.Create` and the job reconciler `xRunner.FindCompleted`.

External collaborators (the bacalhau client and the helper predicates of the
bacalhau `job` package) are not part of this repository; they are modelled
from the spec's description of their semantics (still-running test,
completion test, error test, shard execution count) and passed to the
embedded functions as explicit inputs (the remote list result, the submit
oracle).

Naming note: the Go constant `LilypadJobAnnotation` and the spec field
`Annotations` are rendered here as `lilypadJobTag` / `tags`, following the
spec's vocabulary ("Job Tag", "Tag: a label attached to a remote job").
-/

set_option autoImplicit false

namespace Bridge

/-- Per-shard execution state reported by the remote system. Following the
spec's glossary, the terminal states are completed and errored; `inProgress`
stands for any non-terminal state. -/
inductive JobStateType where
  | inProgress
  | completed
  | error
deriving DecidableEq, Repr

/-- Modelled from the spec: "Terminal state: a shard or job state from which
no further transition occurs (completed or errored)". -/
def JobStateType.isTerminal : JobStateType → Bool
  | .completed => true
  | .error => true
  | .inProgress => false

/-- The job specification part relevant to `Create`: the list of tags
(`Spec.Annotations` in the Go source) attached for later discovery. -/
structure JobSpec where
  tags : List String
deriving DecidableEq, Repr

/-- A bacalhau `model.Job` as consumed by this bridge: its identifier
(`Metadata.ID`), its specification, its shard execution count (the result of
`job.GetJobTotalExecutionCount`, which is derived from the job's execution
plan), and its flattened per-shard state list (`Status.State`). -/
structure Job where
  id : String
  spec : JobSpec
  totalShards : Nat
  shardStates : List JobStateType
deriving DecidableEq, Repr

/-- Modelled from the spec: "Shard Execution Count: total number of parallel
execution units the remote system created for a job" — read off the snapshot. -/
def GetJobTotalExecutionCount (bacjob : Job) : Nat :=
  bacjob.totalShards

/-- Modelled from the spec: the still-running test of the external job
package (`job.WaitForTerminalStates totalShards`). It reports ok exactly when
the job has reached a terminal state for all of its shards — all reported
shard states are terminal and at least `totalShards` many are reported. It
never reports an evaluation error. -/
def waitForTerminalStates (totalShards : Nat) (states : List JobStateType) :
    Bool × Option String :=
  (decide (totalShards ≤ states.length) && states.all JobStateType.isTerminal, none)

/-- Modelled from the spec: the completion test of the external job package
(`job.WaitForJobStates required`). It reports ok exactly when, for every
required state, the count of shards reporting that state equals the required
count exactly. It never reports an evaluation error. -/
def waitForJobStates (required : List (JobStateType × Nat)) (states : List JobStateType) :
    Bool × Option String :=
  (required.all fun p => decide ((states.filter fun s => decide (s = p.1)).length = p.2), none)

/-- Modelled from the spec: the error test of the external job package
(`job.WaitThrowErrors errorStates`). As soon as any shard reports one of the
given error states it returns false together with an error value; otherwise
it reports ok. -/
def waitThrowErrors (errorStates : List JobStateType) (states : List JobStateType) :
    Bool × Option String :=
  if states.any (fun s => errorStates.any fun t => decide (s = t)) then
    (false, some "job has error state")
  else
    (true, none)

/-- The order-submission event consumed by `Create`: exposes an order
identifier (`OrderId()`) and a derived job specification (`Spec()`). -/
structure ContractSubmittedEvent where
  orderId : String
  spec : JobSpec
deriving DecidableEq, Repr

/-- The running-job handle produced by `e.JobCreated(job)`: the original
event's order identifier together with the remote-assigned job identifier
(`JobID()`). -/
structure BacalhauJobRunningEvent where
  orderId : String
  jobId : String
deriving DecidableEq, Repr

/-- The completed-outcome event produced by `j.Completed()`. -/
structure BacalhauJobCompletedEvent where
  orderId : String
  jobId : String
deriving DecidableEq, Repr

/-- The failed-outcome event produced by `j.Failed()`. -/
structure BacalhauJobFailedEvent where
  orderId : String
  jobId : String
deriving DecidableEq, Repr

/-- `e.JobCreated(job)`: wrap the remote-assigned job handle together with
the original event into a running-job handle. -/
def ContractSubmittedEvent.JobCreated (e : ContractSubmittedEvent) (job : Job) :
    BacalhauJobRunningEvent :=
  ⟨e.orderId, job.id⟩

/-- `j.Completed()`: the completed event for this handle. -/
def BacalhauJobRunningEvent.Completed (j : BacalhauJobRunningEvent) :
    BacalhauJobCompletedEvent :=
  ⟨j.orderId, j.jobId⟩

/-- `j.Failed()`: the failed event for this handle. -/
def BacalhauJobRunningEvent.Failed (j : BacalhauJobRunningEvent) :
    BacalhauJobFailedEvent :=
  ⟨j.orderId, j.jobId⟩

/-- The Go constant `LilypadJobAnnotation` ("lilypad-job"), the system-wide
discovery tag. -/
def lilypadJobTag : String := "lilypad-job"

/-- The external world as seen by `Create`: the result of
`model.NewJobWithSaneProductionDefaults()` and the behavior of
`r.Client.Submit` (Go's multi-value return: a job value together with an
optional error; on error the job value is whatever the client returned). -/
structure CreateEnv where
  newJobResult : Except String Job
  submitResult : Job → Job × Option String

/-- What one call of `Create` yields: the returned handle (none for Go's nil
interface), the returned error, and whether `Client.Submit` was invoked. -/
structure CreateResult where
  handle : Option BacalhauJobRunningEvent
  err : Option String
  submitCalled : Bool
deriving DecidableEq, Repr

/-- Embedding of `xRunner.Create`: build the default job, and on failure
return nil together with the wrapped error; otherwise install the event's
spec, append the system-wide tag and the tag derived from the order
identifier, submit, wrap any submission error, and return `e.JobCreated`
of the submitted job alongside that (possibly non-nil) error. -/
def Create (env : CreateEnv) (e : ContractSubmittedEvent) : CreateResult :=
  match env.newJobResult with
  | .error m => ⟨none, some ("error creating Bacalhau job: " ++ m), false⟩
  | .ok job0 =>
    let job1 : Job :=
      { job0 with
        spec := ⟨e.spec.tags ++ [lilypadJobTag, lilypadJobTag ++ "-" ++ e.orderId]⟩ }
    let submitted := env.submitResult job1
    ⟨some (e.JobCreated submitted.1),
     submitted.2.map (fun m => "error submitting Bacalhau job: " ++ m),
     true⟩

/-- The outcome of classifying one matched snapshot. -/
inductive Outcome where
  | stillRunning
  | completed
  | failed
  | unknown
deriving DecidableEq, Repr

/-- The predicate chain that `FindCompleted` evaluates against a matched
snapshot, in source order: still-running test, then completion test, then
error test, else unknown. -/
def classifyJob (bacjob : Job) : Outcome :=
  let totalShards := GetJobTotalExecutionCount bacjob
  let r1 := waitForTerminalStates totalShards bacjob.shardStates
  if !r1.1 || r1.2.isSome then
    .stillRunning
  else
    let r2 := waitForJobStates [(JobStateType.completed, totalShards)] bacjob.shardStates
    if r2.1 && r2.2.isNone then
      .completed
    else
      let r3 := waitThrowErrors [JobStateType.error] bacjob.shardStates
      if !r3.1 || r3.2.isSome then
        .failed
      else
        .unknown

/-- The inner scan of `FindCompleted` for one tracked handle: the first
snapshot whose identifier equals the handle's job identifier (the Go loop
continues past non-matching snapshots and breaks after the first match),
classified; `none` when no snapshot matches. -/
def outcomeFor (bacjobs : List Job) (j : BacalhauJobRunningEvent) : Option Outcome :=
  (bacjobs.find? fun b => decide (b.id = j.jobId)).map classifyJob

/-- The outer loop of `FindCompleted` over the tracked handles, accumulating
the completed and failed events in input order. -/
def FindCompletedLoop (bacjobs : List Job) :
    List BacalhauJobRunningEvent →
      List BacalhauJobCompletedEvent × List BacalhauJobFailedEvent
  | [] => ([], [])
  | j :: rest =>
    let tl := FindCompletedLoop bacjobs rest
    if outcomeFor bacjobs j = some Outcome.completed then
      (j.Completed :: tl.1, tl.2)
    else if outcomeFor bacjobs j = some Outcome.failed then
      (tl.1, j.Failed :: tl.2)
    else
      tl

/-- Embedding of `xRunner.FindCompleted`: `listResult` is the outcome of the
single remote `Client.List` call (none when the query fails or exceeds its
5-second bound). On query failure both result lists are empty; otherwise
each tracked handle is matched against the snapshot list and classified. -/
def FindCompleted (listResult : Option (List Job))
    (jobs : List BacalhauJobRunningEvent) :
    List BacalhauJobCompletedEvent × List BacalhauJobFailedEvent :=
  match listResult with
  | none => ([], [])
  | some bacjobs => FindCompletedLoop bacjobs jobs

/-! Helper lemmas shared by the claim theorems. -/

@[simp]
theorem waitForTerminalStates_snd (totalShards : Nat) (states : List JobStateType) :
    (waitForTerminalStates totalShards states).2 = none :=
  rfl

@[simp]
theorem waitForJobStates_snd (required : List (JobStateType × Nat))
    (states : List JobStateType) :
    (waitForJobStates required states).2 = none :=
  rfl

theorem waitThrowErrors_spec (errorStates states : List JobStateType) :
    waitThrowErrors errorStates states = (false, some "job has error state") ∨
      waitThrowErrors errorStates states = (true, none) := by
  unfold waitThrowErrors
  split <;> simp

@[simp]
theorem Completed_inj {j j' : BacalhauJobRunningEvent} :
    j.Completed = j'.Completed ↔ j = j' := by
  cases j; cases j'
  simp [BacalhauJobRunningEvent.Completed]

@[simp]
theorem Failed_inj {j j' : BacalhauJobRunningEvent} :
    j.Failed = j'.Failed ↔ j = j' := by
  cases j; cases j'
  simp [BacalhauJobRunningEvent.Failed]

theorem outcomeFor_eq_some {bacjobs : List Job} {j : BacalhauJobRunningEvent} {b : Job}
    (hfind : bacjobs.find? (fun x => decide (x.id = j.jobId)) = some b) :
    outcomeFor bacjobs j = some (classifyJob b) := by
  simp [outcomeFor, hfind]

theorem mem_fst_FindCompletedLoop (bacjobs : List Job)
    (H : List BacalhauJobRunningEvent) (c : BacalhauJobCompletedEvent) :
    c ∈ (FindCompletedLoop bacjobs H).1 ↔
      ∃ j, j ∈ H ∧ c = j.Completed ∧ outcomeFor bacjobs j = some Outcome.completed := by
  induction H with
  | nil => simp [FindCompletedLoop]
  | cons j rest ih =>
    by_cases h1 : outcomeFor bacjobs j = some Outcome.completed
    · simp only [FindCompletedLoop, if_pos h1, List.mem_cons]
      constructor
      · rintro (rfl | hc)
        · exact ⟨j, Or.inl rfl, rfl, h1⟩
        · obtain ⟨j', hj', hcj', ho'⟩ := ih.mp hc
          exact ⟨j', Or.inr hj', hcj', ho'⟩
      · rintro ⟨j', (rfl | hj'), hcj', ho'⟩
        · exact Or.inl hcj'
        · exact Or.inr (ih.mpr ⟨j', hj', hcj', ho'⟩)
    · have hfst : (FindCompletedLoop bacjobs (j :: rest)).1 =
          (FindCompletedLoop bacjobs rest).1 := by
        simp only [FindCompletedLoop, if_neg h1]
        split <;> rfl
      rw [hfst, ih]
      constructor
      · rintro ⟨j', hj', hcj', ho'⟩
        exact ⟨j', List.mem_cons_of_mem _ hj', hcj', ho'⟩
      · rintro ⟨j', hj', hcj', ho'⟩
        rcases List.mem_cons.mp hj' with rfl | hj''
        · exact absurd ho' h1
        · exact ⟨j', hj'', hcj', ho'⟩

theorem mem_snd_FindCompletedLoop (bacjobs : List Job)
    (H : List BacalhauJobRunningEvent) (f : BacalhauJobFailedEvent) :
    f ∈ (FindCompletedLoop bacjobs H).2 ↔
      ∃ j, j ∈ H ∧ f = j.Failed ∧ outcomeFor bacjobs j = some Outcome.failed := by
  induction H with
  | nil => simp [FindCompletedLoop]
  | cons j rest ih =>
    by_cases h2 : outcomeFor bacjobs j = some Outcome.failed
    · have h1 : ¬ outcomeFor bacjobs j = some Outcome.completed := by
        simp [h2]
      simp only [FindCompletedLoop, if_neg h1, if_pos h2, List.mem_cons]
      constructor
      · rintro (rfl | hf)
        · exact ⟨j, Or.inl rfl, rfl, h2⟩
        · obtain ⟨j', hj', hfj', ho'⟩ := ih.mp hf
          exact ⟨j', Or.inr hj', hfj', ho'⟩
      · rintro ⟨j', (rfl | hj'), hfj', ho'⟩
        · exact Or.inl hfj'
        · exact Or.inr (ih.mpr ⟨j', hj', hfj', ho'⟩)
    · have hsnd : (FindCompletedLoop bacjobs (j :: rest)).2 =
          (FindCompletedLoop bacjobs rest).2 := by
        by_cases h1 : outcomeFor bacjobs j = some Outcome.completed
        · simp only [FindCompletedLoop, if_pos h1]
        · simp only [FindCompletedLoop, if_neg h1, if_neg h2]
      rw [hsnd, ih]
      constructor
      · rintro ⟨j', hj', hfj', ho'⟩
        exact ⟨j', List.mem_cons_of_mem _ hj', hfj', ho'⟩
      · rintro ⟨j', hj', hfj', ho'⟩
        rcases List.mem_cons.mp hj' with rfl | hj''
        · exact absurd ho' h2
        · exact ⟨j', hj'', hfj', ho'⟩

theorem length_FindCompletedLoop (bacjobs : List Job)
    (H : List BacalhauJobRunningEvent) :
    (FindCompletedLoop bacjobs H).1.length + (FindCompletedLoop bacjobs H).2.length ≤
      H.length := by
  induction H with
  | nil => simp [FindCompletedLoop]
  | cons j rest ih =>
    simp only [FindCompletedLoop, List.length_cons]
    split
    · simp only [List.length_cons]
      omega
    · split
      · simp only [List.length_cons]
        omega
      · omega

/-! Claim theorems. -/

/-- C1, counterexample: when the remote submit fails, `Create` returns both a
running-job handle (wrapping the submit-returned job) and a non-nil wrapped
error from the same call, so "never both a handle and a non-nil error" fails
at this concrete input. -/
theorem Create_yields_both_on_submit_failure :
    ((Create ⟨Except.ok ⟨"", ⟨[]⟩, 0, []⟩, fun job => (job, some "boom")⟩
        ⟨"order-1", ⟨[]⟩⟩).handle).isSome = true ∧
    ((Create ⟨Except.ok ⟨"", ⟨[]⟩, 0, []⟩, fun job => (job, some "boom")⟩
        ⟨"order-1", ⟨[]⟩⟩).err).isSome = true :=
  ⟨rfl, rfl⟩

/-- C1, amended: for every order event E, every handle `Create(E)` yields has
OrderId equal to E.OrderId(); a nil handle only comes with a wrapped
job-construction error, and `Create` never yields a nil handle together with
a nil error — but on submission failure it yields a handle and a non-nil
error together. -/
theorem Create_handle_matches_order (env : CreateEnv) (e : ContractSubmittedEvent) :
    (∀ h, (Create env e).handle = some h → h.orderId = e.orderId)
  ∧ ((Create env e).handle = none →
      ∃ m, (Create env e).err = some ("error creating Bacalhau job: " ++ m))
  ∧ ¬ ((Create env e).handle = none ∧ (Create env e).err = none) := by
  cases henv : env.newJobResult with
  | error m =>
    refine ⟨?_, ?_, ?_⟩ <;> simp [Create, henv]
  | ok job0 =>
    refine ⟨?_, ?_, ?_⟩ <;>
      simp [Create, henv, ContractSubmittedEvent.JobCreated]

/-- Witness for C1's amended theorem at a successful concrete submission. -/
theorem Create_handle_matches_order_witness :
    (⟨"order-1", "jid-9"⟩ : BacalhauJobRunningEvent).orderId = "order-1" :=
  (Create_handle_matches_order
      ⟨Except.ok ⟨"", ⟨[]⟩, 0, []⟩, fun job => ({ job with id := "jid-9" }, none)⟩
      ⟨"order-1", ⟨[]⟩⟩).1 ⟨"order-1", "jid-9"⟩ rfl

/-- C9: if constructing the default job specification fails, `Create` returns
a nil handle together with an error wrapped with "error creating Bacalhau
job", and no submission call is made to the remote system. -/
theorem Create_default_job_failure (env : CreateEnv) (e : ContractSubmittedEvent)
    (m : String) (h : env.newJobResult = Except.error m) :
    Create env e = ⟨none, some ("error creating Bacalhau job: " ++ m), false⟩ := by
  simp [Create, h]

/-- Witness for C9 at a concrete failing environment. -/
theorem Create_default_job_failure_witness :
    Create ⟨Except.error "nope", fun job => (job, none)⟩ ⟨"order-1", ⟨[]⟩⟩ =
      ⟨none, some ("error creating Bacalhau job: " ++ "nope"), false⟩ :=
  Create_default_job_failure _ _ "nope" rfl

/-- C4: if the remote list query fails or times out, `FindCompleted` returns
two empty lists and propagates no error value to the caller. -/
theorem FindCompleted_query_failure (H : List BacalhauJobRunningEvent) :
    FindCompleted none H = ([], []) :=
  rfl

/-- C8: two invocations of `FindCompleted` with the same handles and the same
unchanged remote response return identical completed and failed
classifications — the function is deterministic in its inputs and keeps no
state between calls. -/
theorem FindCompleted_deterministic (r r' : Option (List Job))
    (H H' : List BacalhauJobRunningEvent) (hr : r = r') (hH : H = H') :
    FindCompleted r H = FindCompleted r' H' := by
  rw [hr, hH]

/-- Witness for C8 at a concrete snapshot list and handle list. -/
theorem FindCompleted_deterministic_witness :
    FindCompleted (some [⟨"J", ⟨[]⟩, 2, [JobStateType.completed, JobStateType.error]⟩])
        [⟨"O", "J"⟩] =
      FindCompleted (some [⟨"J", ⟨[]⟩, 2, [JobStateType.completed, JobStateType.error]⟩])
        [⟨"O", "J"⟩] :=
  FindCompleted_deterministic _ _ _ _ rfl rfl

/-- C3: the two lists returned by `FindCompleted` are subsets of the
completed/failed event-transforms of the input handles and are pairwise
disjoint — no input handle's outcome appears in both lists. -/
theorem FindCompleted_subsets_disjoint (r : Option (List Job))
    (H : List BacalhauJobRunningEvent) :
    (∀ c ∈ (FindCompleted r H).1, ∃ j, j ∈ H ∧ c = j.Completed)
  ∧ (∀ f ∈ (FindCompleted r H).2, ∃ j, j ∈ H ∧ f = j.Failed)
  ∧ ∀ j, j ∈ H →
      ¬ (j.Completed ∈ (FindCompleted r H).1 ∧ j.Failed ∈ (FindCompleted r H).2) := by
  cases r with
  | none =>
    refine ⟨?_, ?_, ?_⟩ <;> simp [FindCompleted]
  | some bacjobs =>
    refine ⟨?_, ?_, ?_⟩
    · intro c hc
      obtain ⟨j, hj, hcj, _⟩ := (mem_fst_FindCompletedLoop bacjobs H c).mp hc
      exact ⟨j, hj, hcj⟩
    · intro f hf
      obtain ⟨j, hj, hfj, _⟩ := (mem_snd_FindCompletedLoop bacjobs H f).mp hf
      exact ⟨j, hj, hfj⟩
    · rintro j hj ⟨hc, hf⟩
      obtain ⟨j1, _, hcj1, ho1⟩ := (mem_fst_FindCompletedLoop bacjobs H _).mp hc
      obtain ⟨j2, _, hfj2, ho2⟩ := (mem_snd_FindCompletedLoop bacjobs H _).mp hf
      have e1 : j1 = j := Completed_inj.mp hcj1.symm
      have e2 : j2 = j := Failed_inj.mp hfj2.symm
      subst e1
      subst e2
      rw [ho1] at ho2
      simp at ho2

/-- Witness for C3 at a concrete snapshot list and handle list. -/
theorem FindCompleted_subsets_disjoint_witness :
    ¬ ((⟨"O", "J"⟩ : BacalhauJobRunningEvent).Completed ∈
        (FindCompleted (some [⟨"J", ⟨[]⟩, 2, [JobStateType.completed, JobStateType.error]⟩])
          [⟨"O", "J"⟩]).1 ∧
       (⟨"O", "J"⟩ : BacalhauJobRunningEvent).Failed ∈
        (FindCompleted (some [⟨"J", ⟨[]⟩, 2, [JobStateType.completed, JobStateType.error]⟩])
          [⟨"O", "J"⟩]).2) :=
  (FindCompleted_subsets_disjoint _ _).2.2 ⟨"O", "J"⟩ (by simp)

/-- C2: for a matched snapshot that is terminal (the still-running test
reports ok) and fails the completion test, `FindCompleted` classifies the
handle as Failed exactly when the error-state predicate returns false or
itself reports an error. -/
theorem FindCompleted_failure_trigger (bacjobs : List Job)
    (H : List BacalhauJobRunningEvent) (j : BacalhauJobRunningEvent) (b : Job)
    (hfind : bacjobs.find? (fun x => decide (x.id = j.jobId)) = some b)
    (hj : j ∈ H)
    (hterm : (waitForTerminalStates (GetJobTotalExecutionCount b) b.shardStates).1 = true)
    (hnc : (waitForJobStates [(JobStateType.completed, GetJobTotalExecutionCount b)]
        b.shardStates).1 = false) :
    j.Failed ∈ (FindCompleted (some bacjobs) H).2 ↔
      ((waitThrowErrors [JobStateType.error] b.shardStates).1 = false ∨
        ((waitThrowErrors [JobStateType.error] b.shardStates).2).isSome = true) := by
  have hout : outcomeFor bacjobs j = some (classifyJob b) := outcomeFor_eq_some hfind
  have hmem : j.Failed ∈ (FindCompleted (some bacjobs) H).2 ↔
      classifyJob b = Outcome.failed := by
    show j.Failed ∈ (FindCompletedLoop bacjobs H).2 ↔ _
    rw [mem_snd_FindCompletedLoop]
    constructor
    · rintro ⟨j', hj', hfj', ho'⟩
      have e1 : j' = j := Failed_inj.mp hfj'.symm
      subst e1
      rw [hout] at ho'
      exact Option.some.inj ho'
    · intro hcl
      exact ⟨j, hj, rfl, by rw [hout, hcl]⟩
  have hclass : classifyJob b = Outcome.failed ↔
      ((waitThrowErrors [JobStateType.error] b.shardStates).1 = false ∨
        ((waitThrowErrors [JobStateType.error] b.shardStates).2).isSome = true) := by
    rcases waitThrowErrors_spec [JobStateType.error] b.shardStates with hw | hw <;>
      simp [classifyJob, hterm, hnc, hw]
  exact hmem.trans hclass

/-- Witness for C2: the spec scenario totalShards=2, one shard completed and
one errored (both terminal) — the handle lands in the failed set. -/
theorem FindCompleted_failure_trigger_witness :
    (⟨"O", "J"⟩ : BacalhauJobRunningEvent).Failed ∈
      (FindCompleted (some [⟨"J", ⟨[]⟩, 2, [JobStateType.completed, JobStateType.error]⟩])
        [⟨"O", "J"⟩]).2 :=
  (FindCompleted_failure_trigger
      [⟨"J", ⟨[]⟩, 2, [JobStateType.completed, JobStateType.error]⟩]
      [⟨"O", "J"⟩] ⟨"O", "J"⟩
      ⟨"J", ⟨[]⟩, 2, [JobStateType.completed, JobStateType.error]⟩
      (by decide) (by decide) (by decide) (by decide)).mpr (Or.inl (by decide))

/-- C5: a tracked handle whose matching snapshot has totalShards ≥ 1, all
shards terminal, and exactly totalShards many completed shards is classified
Completed — its Completed event appears in the first returned list. -/
theorem FindCompleted_complete_classified (bacjobs : List Job)
    (H : List BacalhauJobRunningEvent) (j : BacalhauJobRunningEvent) (b : Job)
    (hfind : bacjobs.find? (fun x => decide (x.id = j.jobId)) = some b)
    (hj : j ∈ H)
    (_hts : 1 ≤ b.totalShards)
    (hterm : b.shardStates.all JobStateType.isTerminal = true)
    (hcount : (b.shardStates.filter fun s => decide (s = JobStateType.completed)).length =
        GetJobTotalExecutionCount b) :
    j.Completed ∈ (FindCompleted (some bacjobs) H).1 := by
  have hle : GetJobTotalExecutionCount b ≤ b.shardStates.length := by
    rw [← hcount]
    exact List.length_filter_le _ _
  have hclass : classifyJob b = Outcome.completed := by
    simp [classifyJob, waitForTerminalStates, waitForJobStates, hterm, hle, hcount]
  show j.Completed ∈ (FindCompletedLoop bacjobs H).1
  exact (mem_fst_FindCompletedLoop bacjobs H _).mpr
    ⟨j, hj, rfl, by rw [outcomeFor_eq_some hfind, hclass]⟩

/-- Witness for C5: the spec scenario totalShards=3, three completed shards —
the handle lands in the completed set. -/
theorem FindCompleted_complete_classified_witness :
    (⟨"O", "J"⟩ : BacalhauJobRunningEvent).Completed ∈
      (FindCompleted (some [⟨"J", ⟨[]⟩, 3,
        [JobStateType.completed, JobStateType.completed, JobStateType.completed]⟩])
        [⟨"O", "J"⟩]).1 :=
  FindCompleted_complete_classified
    [⟨"J", ⟨[]⟩, 3,
      [JobStateType.completed, JobStateType.completed, JobStateType.completed]⟩]
    [⟨"O", "J"⟩] ⟨"O", "J"⟩
    ⟨"J", ⟨[]⟩, 3,
      [JobStateType.completed, JobStateType.completed, JobStateType.completed]⟩
    (by decide) (by decide) (by decide) (by decide) (by decide)

/-- C6: a tracked handle whose matching snapshot is still executing (not all
shards in a terminal state) is placed in neither returned list. -/
theorem FindCompleted_still_running_untouched (bacjobs : List Job)
    (H : List BacalhauJobRunningEvent) (j : BacalhauJobRunningEvent) (b : Job)
    (hfind : bacjobs.find? (fun x => decide (x.id = j.jobId)) = some b)
    (hrun : b.shardStates.all JobStateType.isTerminal = false) :
    j.Completed ∉ (FindCompleted (some bacjobs) H).1 ∧
    j.Failed ∉ (FindCompleted (some bacjobs) H).2 := by
  have hclass : classifyJob b = Outcome.stillRunning := by
    simp [classifyJob, waitForTerminalStates, hrun]
  have hout : outcomeFor bacjobs j = some Outcome.stillRunning := by
    rw [outcomeFor_eq_some hfind, hclass]
  constructor
  · intro hc
    obtain ⟨j', hj', hcj', ho'⟩ := (mem_fst_FindCompletedLoop bacjobs H _).mp hc
    have e1 : j' = j := Completed_inj.mp hcj'.symm
    subst e1
    rw [hout] at ho'
    simp at ho'
  · intro hf
    obtain ⟨j', hj', hfj', ho'⟩ := (mem_snd_FindCompletedLoop bacjobs H _).mp hf
    have e1 : j' = j := Failed_inj.mp hfj'.symm
    subst e1
    rw [hout] at ho'
    simp at ho'

/-- Witness for C6: a snapshot with one shard still in progress leaves the
handle out of both returned lists. -/
theorem FindCompleted_still_running_untouched_witness :
    (⟨"O", "J"⟩ : BacalhauJobRunningEvent).Completed ∉
      (FindCompleted (some [⟨"J", ⟨[]⟩, 2, [JobStateType.completed, JobStateType.inProgress]⟩])
        [⟨"O", "J"⟩]).1 ∧
    (⟨"O", "J"⟩ : BacalhauJobRunningEvent).Failed ∉
      (FindCompleted (some [⟨"J", ⟨[]⟩, 2, [JobStateType.completed, JobStateType.inProgress]⟩])
        [⟨"O", "J"⟩]).2 :=
  FindCompleted_still_running_untouched
    [⟨"J", ⟨[]⟩, 2, [JobStateType.completed, JobStateType.inProgress]⟩]
    [⟨"O", "J"⟩] ⟨"O", "J"⟩
    ⟨"J", ⟨[]⟩, 2, [JobStateType.completed, JobStateType.inProgress]⟩
    (by decide) (by decide)

/-- C7: a tracked handle whose job identifier equals no snapshot identifier
in the remote list is omitted from both returned lists. -/
theorem FindCompleted_unmatched_untouched (bacjobs : List Job)
    (H : List BacalhauJobRunningEvent) (j : BacalhauJobRunningEvent)
    (habs : ∀ b, b ∈ bacjobs → b.id ≠ j.jobId) :
    j.Completed ∉ (FindCompleted (some bacjobs) H).1 ∧
    j.Failed ∉ (FindCompleted (some bacjobs) H).2 := by
  have hfind : bacjobs.find? (fun x => decide (x.id = j.jobId)) = none := by
    rw [List.find?_eq_none]
    intro x hx
    simp [habs x hx]
  have hout : outcomeFor bacjobs j = none := by
    simp [outcomeFor, hfind]
  constructor
  · intro hc
    obtain ⟨j', hj', hcj', ho'⟩ := (mem_fst_FindCompletedLoop bacjobs H _).mp hc
    have e1 : j' = j := Completed_inj.mp hcj'.symm
    subst e1
    rw [hout] at ho'
    simp at ho'
  · intro hf
    obtain ⟨j', hj', hfj', ho'⟩ := (mem_snd_FindCompletedLoop bacjobs H _).mp hf
    have e1 : j' = j := Failed_inj.mp hfj'.symm
    subst e1
    rw [hout] at ho'
    simp at ho'

/-- Witness for C7: a remote list naming only another job identifier leaves
the handle out of both returned lists. -/
theorem FindCompleted_unmatched_untouched_witness :
    (⟨"O", "J"⟩ : BacalhauJobRunningEvent).Completed ∉
      (FindCompleted (some [⟨"K", ⟨[]⟩, 1, [JobStateType.completed]⟩]) [⟨"O", "J"⟩]).1 ∧
    (⟨"O", "J"⟩ : BacalhauJobRunningEvent).Failed ∉
      (FindCompleted (some [⟨"K", ⟨[]⟩, 1, [JobStateType.completed]⟩]) [⟨"O", "J"⟩]).2 :=
  FindCompleted_unmatched_untouched
    [⟨"K", ⟨[]⟩, 1, [JobStateType.completed]⟩] [⟨"O", "J"⟩] ⟨"O", "J"⟩
    (by decide)

/-- C10: each input handle contributes at most one outcome per invocation, so
the combined length of the two result lists is at most the input length; and
only the first snapshot with a matching identifier is examined, even when the
snapshot list holds duplicate identifiers. -/
theorem FindCompleted_one_outcome_bound (r : Option (List Job))
    (H : List BacalhauJobRunningEvent) :
    ((FindCompleted r H).1.length + (FindCompleted r H).2.length ≤ H.length)
  ∧ ∀ (b : Job) (rest : List Job) (j : BacalhauJobRunningEvent),
      b.id = j.jobId → outcomeFor (b :: rest) j = some (classifyJob b) := by
  constructor
  · cases r with
    | none => simp [FindCompleted]
    | some bacjobs => exact length_FindCompletedLoop bacjobs H
  · intro b rest j hid
    simp [outcomeFor, List.find?_cons, hid]

/-- Witness for C10: a snapshot list with two snapshots carrying the same
identifier — the first one decides the outcome, and the length bound holds at
a concrete input. -/
theorem FindCompleted_one_outcome_bound_witness :
    ((FindCompleted (some [⟨"J", ⟨[]⟩, 2, [JobStateType.completed, JobStateType.error]⟩])
        [⟨"O", "J"⟩]).1.length +
      (FindCompleted (some [⟨"J", ⟨[]⟩, 2, [JobStateType.completed, JobStateType.error]⟩])
        [⟨"O", "J"⟩]).2.length ≤ 1)
  ∧ outcomeFor
      [⟨"J", ⟨[]⟩, 2, [JobStateType.completed, JobStateType.error]⟩,
       ⟨"J", ⟨[]⟩, 3, [JobStateType.inProgress]⟩] ⟨"O", "J"⟩ =
      some (classifyJob ⟨"J", ⟨[]⟩, 2, [JobStateType.completed, JobStateType.error]⟩) :=
  ⟨(FindCompleted_one_outcome_bound
      (some [⟨"J", ⟨[]⟩, 2, [JobStateType.completed, JobStateType.error]⟩])
      [⟨"O", "J"⟩]).1,
   (FindCompleted_one_outcome_bound
      (some [⟨"J", ⟨[]⟩, 2, [JobStateType.completed, JobStateType.error]⟩])
      [⟨"O", "J"⟩]).2
     ⟨"J", ⟨[]⟩, 2, [JobStateType.completed, JobStateType.error]⟩
     [⟨"J", ⟨[]⟩, 3, [JobStateType.inProgress]⟩] ⟨"O", "J"⟩ rfl⟩

end Bridge
